import Mathlib

/-!
Verification of src/rustobject.rs: the layered composite object
(PyRustObject) and the runtime type builder (PyRustTypeBuilder).

Modelling conventions:
* Machine memory is byte-addressed; a memory is a function from addresses
  (Nat) to byte values (Nat).  `ptr::write` / `copy_nonoverlapping` become
  `writeBytes`, reading a T value back becomes `readBytes`.
* A Rust payload type `T` is modelled by its `mem::size_of` and
  `mem::min_align_of` values, plus an observation `label` used only to
  record which payload layer is destructed (the drop-counter
  instrumentation the spec describes for destruction-order testing).
* The chain of `PythonBaseObject` implementations in the file is closed:
  `PyObject` (the minimal base) and `PyRustObject<T, B>`.  `BaseTy` is
  exactly that inductive chain; `hs` stands for `size_of::<ffi::PyObject>()`.
* Calls into the foreign runtime (tp_alloc, PyType_Ready, PyDict_SetItem,
  PyModule name lookup, PyObject_Malloc) are modelled by passing their
  outcome as an explicit argument, since the runtime itself is the
  out-of-scope collaborator.
* Rust `panic!` is distinguished from the typed `PyResult` failure path by
  the `Outcome` type, which has no typed-error alternative: `Outcome.ok`
  or `Outcome.panicked` only.  `PyResult` failures are `Except PyErr`.
-/

/-- A byte-addressed memory: address to byte value. -/
abbrev Mem : Type := Nat → Nat

/-- Write the byte list `bs` into memory starting at address `off`
(models `ptr::write` of a value occupying `bs.length` bytes, and
`copy_nonoverlapping`). -/
def writeBytes (m : Mem) (off : Nat) (bs : List Nat) : Mem :=
  fun a => if h : off ≤ a ∧ a - off < bs.length then bs.get ⟨a - off, h.2⟩ else m a

/-- Read `n` bytes from memory starting at address `off`. -/
def readBytes (m : Mem) (off n : Nat) : List Nat :=
  (List.range n).map (fun i => m (off + i))

/-- A Rust payload type, reduced to the data the layout code consumes:
`size` models `mem::size_of::<T>()`, `align` models
`mem::min_align_of::<T>()`; `label` is an observation tag that lets the
drop-order instrumentation name this payload layer. -/
structure PayloadTy where
  size : Nat
  align : Nat
  label : Nat
deriving DecidableEq, Repr

/-- Rounding used by `PyRustObject::offset`: `(s + a - 1) / a * a`,
the source's literal expression for rounding `s` up to the next multiple
of `a`. -/
def roundUpToMultiple (s a : Nat) : Nat := (s + a - 1) / a * a

/-- The closed chain of `PythonBaseObject` implementations in the file:
the minimal `PyObject` base and the composite `PyRustObject<T, B>`. -/
inductive BaseTy where
  | pyObject
  | pyRustObject (t : PayloadTy) (b : BaseTy)
deriving DecidableEq, Repr

/-- The trait method `size()`.  For `PyObject` it is
`mem::size_of::<ffi::PyObject>()` (the parameter `hs`); for
`PyRustObject<T, B>` it is `offset() + mem::size_of::<T>()`, with
`offset()` inlined as the rounding of `B::size()` up to `T`'s alignment. -/
def BaseTy.size (hs : Nat) : BaseTy → Nat
  | .pyObject => hs
  | .pyRustObject t b => roundUpToMultiple (BaseTy.size hs b) t.align + t.size

/-- The private `PyRustObject::<T, B>::offset()`: round `B::size()` up to
the next multiple of `mem::min_align_of::<T>()`. -/
def PyRustObject.offset (hs : Nat) (t : PayloadTy) (b : BaseTy) : Nat :=
  roundUpToMultiple (BaseTy.size hs b) t.align

/-- Typed failures of the `PyResult` error path.  `fetched` models
`PyErr::fetch` after a null return from the runtime (as performed by
`err::result_from_owned_ptr`); `typeError` models a raised TypeError. -/
inductive PyErr where
  | fetched
  | typeError (msg : String)
deriving DecidableEq, Repr

/-- The associated type `InitType`: `()` for `PyObject`,
`(T, B::InitType)` for `PyRustObject<T, B>` (a `T` value is its byte
image, a list of `size_of::<T>()` bytes). -/
def BaseTy.InitType : BaseTy → Type
  | .pyObject => Unit
  | .pyRustObject _ b => List Nat × BaseTy.InitType b

/-- Models `err::result_from_owned_ptr`: a null pointer from the runtime
becomes an error carrying the fetched runtime exception, a non-null
pointer becomes the object. -/
def result_from_owned_ptr (p : Option Mem) : Except PyErr Mem :=
  match p with
  | none => .error .fetched
  | some m => .ok m

/-- The trait method `alloc`.  For `PyObject` it calls the type's
`tp_alloc` slot (its outcome is the argument `tpAllocResult`: `none` is a
null return) and converts the pointer via `result_from_owned_ptr`.  For
`PyRustObject<T, B>` it first allocates via `B::alloc` (propagating a
failure with `try!`), then writes the payload value at `offset()`. -/
def BaseTy.alloc (hs : Nat) (tpAllocResult : Option Mem) :
    (b : BaseTy) → b.InitType → Except PyErr Mem
  | .pyObject, _ => result_from_owned_ptr tpAllocResult
  | .pyRustObject t b, (val, bi) =>
    match BaseTy.alloc hs tpAllocResult b bi with
    | .error e => .error e
    | .ok m => .ok (writeBytes m (PyRustObject.offset hs t b) val)

/-- The accessor `PyRustObject::get`: reinterpret the
`size_of::<T>()` bytes at `self + offset()` as the stored `T`. -/
def PyRustObject.get (hs : Nat) (t : PayloadTy) (b : BaseTy) (m : Mem) : List Nat :=
  readBytes m (PyRustObject.offset hs t b) t.size

/-- Observable deallocation events: destructing the payload of one layer
(`ptr::read_and_drop` at that layer's offset), or the final
`tp_free` call made by `PyObject::dealloc`. -/
inductive DropEvent where
  | dropPayload (label : Nat) (off : Nat)
  | tpFree
deriving DecidableEq, Repr

/-- The trait method `dealloc`, as its trace of observable events.
`PyObject::dealloc` calls `tp_free`; `PyRustObject::<T, B>::dealloc`
first `ptr::read_and_drop`s the `T` at `offset()` and then delegates to
`B::dealloc`. -/
def BaseTy.dealloc (hs : Nat) : BaseTy → List DropEvent
  | .pyObject => [.tpFree]
  | .pyRustObject t b =>
    .dropPayload t.label (PyRustObject.offset hs t b) :: BaseTy.dealloc hs b

/-- Rust panic vs normal return: `Outcome` deliberately has no typed
error alternative, mirroring a function whose only failure mode is
`panic!`. -/
inductive Outcome (α : Type) where
  | ok (val : α)
  | panicked (msg : String)
deriving DecidableEq, Repr

/-- Sequencing on `Outcome`: a panic aborts the rest of the scenario. -/
def Outcome.bind {α β : Type} : Outcome α → (α → Outcome β) → Outcome β
  | .ok a, f => f a
  | .panicked msg, _ => .panicked msg

/-- The method `PyRustType::create_instance`: call the composite `alloc`
and `.unwrap()` the result, so an allocation failure becomes a panic. -/
def PyRustType.create_instance (hs : Nat) (tpAllocResult : Option Mem) (t : PayloadTy)
    (b : BaseTy) (val : List Nat) (bi : b.InitType) : Outcome Mem :=
  match BaseTy.alloc hs tpAllocResult (.pyRustObject t b) (val, bi) with
  | .ok m => .ok m
  | .error _ => .panicked "unwrap failed"

/-- The possible contents of the `tp_new` slot once the builder has set
it: the only function the builder ever installs there is
`disabled_tp_new_callback`. -/
inductive TpNewSlot where
  | disabled
deriving DecidableEq, Repr

/-- The fields of the heap type object (`ffi::PyHeapTypeObject`) that the
builder reads or writes.  `tp_doc` holds the id of the currently
installed documentation buffer; `tp_dealloc` records whether the
composite dealloc callback has been installed.  Reference-count fields
and `tp_flags` are pure runtime glue and carry no information used by
the builder logic, so they are not tracked. -/
structure HeapTypeState where
  ht_name : String
  tp_new : Option TpNewSlot
  tp_base : Option Nat
  tp_dict : List (String × String)
  tp_doc : Option Nat
  tp_basicsize : Nat
  tp_dealloc : Bool
deriving DecidableEq, Repr

/-- The builder struct `PyRustTypeBuilder`: the staged heap type object
plus the optional target module (modules are identified by a Nat). -/
structure BuilderState where
  ht : HeapTypeState
  target_module : Option Nat
deriving DecidableEq, Repr

/-- The callback installed into `tp_new` by the builder: it sets a
TypeError ("Cannot initialize rust object from python.") and returns a
null object pointer, for every subtype and every argument tuple. -/
def disabled_tp_new_callback (subty : Nat) (args : List Nat) (kwds : List (Nat × Nat)) :
    Option PyErr × Option Nat :=
  (some (.typeError "Cannot initialize rust object from python."), none)

/-- The heap type state directly after `PyRustTypeBuilder::new` succeeds:
name stored, `tp_new` pointing at the disabled callback, all remaining
slots still zero/null from the zeroing `tp_alloc`. -/
def freshHeapType (name : String) : HeapTypeState :=
  { ht_name := name, tp_new := some .disabled, tp_base := none,
    tp_dict := [], tp_doc := none, tp_basicsize := 0, tp_dealloc := false }

/-- `PyRustTypeBuilder::new`: allocate the heap type via
`PyType_Type.tp_alloc` (outcome passed as `tpAllocOk`); a null result is
an immediate `panic!("Out of memory")`, otherwise the fresh builder with
no target module is returned. -/
def PyRustTypeBuilder.new (name : String) (tpAllocOk : Bool) : Outcome BuilderState :=
  if tpAllocOk then
    .ok { ht := freshHeapType name, target_module := none }
  else
    .panicked "Out of memory"

/-- `PyRustTypeBuilder::base`: replace the declared base type pointer
(the refcount juggling on the old and new base is runtime glue); every
other slot, notably `tp_new`, is untouched. -/
def PyRustTypeBuilder.base (b : BuilderState) (baseTypeId : Nat) : BuilderState :=
  { b with ht := { b.ht with tp_base := some baseTypeId } }

/-- Bookkeeping for buffers allocated with `PyObject_Malloc` and
released with `PyObject_Free`: live buffers are (id, contents) pairs. -/
structure DocHeap where
  nextId : Nat
  buffers : List (Nat × List Nat)
deriving DecidableEq, Repr

/-- First step of `doc`: if `tp_doc` is non-null, `PyObject_Free` the
previously installed buffer. -/
def freeDocBuffer (b : BuilderState) (h : DocHeap) : DocHeap :=
  match b.ht.tp_doc with
  | some oldId => { h with buffers := h.buffers.filter (fun p => p.1 != oldId) }
  | none => h

/-- Success path of `doc`: allocate a fresh `doc_str.len() + 1` byte
buffer, install its pointer into `tp_doc`, and
`copy_nonoverlapping(doc_str.as_ptr(), p, doc_str.len() + 1)`.  The copy
length is one byte more than the source string holds, so the final byte
of the buffer is whatever byte sits in memory directly after the string:
the argument `adjacentByte`. -/
def installDoc (b : BuilderState) (h1 : DocHeap) (docBytes : List Nat)
    (adjacentByte : Nat) : BuilderState × DocHeap :=
  ({ b with ht := { b.ht with tp_doc := some h1.nextId } },
   { nextId := h1.nextId + 1,
     buffers := (h1.nextId, docBytes ++ [adjacentByte]) :: h1.buffers })

/-- `PyRustTypeBuilder::doc`: free the old buffer, then allocate the new
one via `PyObject_Malloc` (outcome passed as `mallocOk`); a null result
is `panic!("Out of memory")`, otherwise the copy is performed and the
builder returned. -/
def PyRustTypeBuilder.doc (b : BuilderState) (h : DocHeap) (docBytes : List Nat)
    (adjacentByte : Nat) (mallocOk : Bool) : Outcome (BuilderState × DocHeap) :=
  let h1 := freeDocBuffer b h
  if mallocOk then .ok (installDoc b h1 docBytes adjacentByte)
  else .panicked "Out of memory"

/-- The finished `PyRustType` returned by `finish`. -/
structure PyRustType where
  type_obj : HeapTypeState
deriving DecidableEq, Repr

/-- Observable foreign calls made by `finish`: the `PyType_Ready`
finalization, and registration of the type into a module dict under a
name. -/
inductive FinishEvent where
  | typeReady
  | registerInModule (moduleId : Nat) (name : String)
deriving DecidableEq, Repr

/-- The mutation `finish` performs on the staged heap type before
`PyType_Ready`: store `PyRustObject::<T, B>::size()` into
`tp_basicsize` and install the composite dealloc callback. -/
def finishedHeapType (hs : Nat) (t : PayloadTy) (bty : BaseTy)
    (ht : HeapTypeState) : HeapTypeState :=
  { ht with tp_basicsize := BaseTy.size hs (.pyRustObject t bty), tp_dealloc := true }

/-- `PyRustTypeBuilder::finish`: set `tp_basicsize` and `tp_dealloc`,
call `PyType_Ready` (outcome `readyResult`, propagated with `try!`);
on success, if a target module is present, `set_item` the type into the
module dict under the stored `ht_name` (outcome `setItemResult`,
propagated with `try!`); return the finished type.  The second
component is the trace of foreign calls attempted. -/
def PyRustTypeBuilder.finish (hs : Nat) (t : PayloadTy) (bty : BaseTy) (b : BuilderState)
    (readyResult setItemResult : Except PyErr Unit) :
    Except PyErr PyRustType × List FinishEvent :=
  match readyResult with
  | .error e => (.error e, [.typeReady])
  | .ok _ =>
    match b.target_module with
    | some mId =>
      match setItemResult with
      | .error e => (.error e, [.typeReady, .registerInModule mId b.ht.ht_name])
      | .ok _ => (.ok ⟨finishedHeapType hs t bty b.ht⟩,
                  [.typeReady, .registerInModule mId b.ht.ht_name])
    | none => (.ok ⟨finishedHeapType hs t bty b.ht⟩, [.typeReady])

/-- The free function `new_typebuilder_for_module`: build a fresh
builder, then try to set the "__module__" dict entry to the module's
name — `m.name()` may fail (`moduleName` is an `Except`) and
`set_item` may fail (`setItemResult`), and both failures are silently
discarded (`if let Ok(..)` and `.ok()`); finally return the builder
with the target module attached. -/
def new_typebuilder_for_module (m : Nat) (moduleName : Except PyErr String)
    (name : String) (tpAllocOk : Bool) (setItemResult : Except PyErr Unit) :
    Outcome BuilderState :=
  match PyRustTypeBuilder.new name tpAllocOk with
  | .panicked msg => .panicked msg
  | .ok b =>
    let b1 :=
      match moduleName, setItemResult with
      | .ok mn, .ok _ =>
        { b with ht := { b.ht with tp_dict := ("__module__", mn) :: b.ht.tp_dict } }
      | _, _ => b
    .ok { b1 with target_module := some m }

/-- The ASCII bytes of the example doc string "hello". -/
def helloBytes : List Nat := [104, 101, 108, 108, 111]

/-- The empty `PyObject_Malloc` heap. -/
def emptyDocHeap : DocHeap := { nextId := 0, buffers := [] }

/-- Scenario for the double doc-string call: build a fresh type, then
call `doc` twice with the bytes of "hello"; `adj1` and `adj2` are the
bytes that happen to sit one past the end of the source string at each
call (read out of bounds by the `len + 1` copy). -/
def docTwiceScenario (adj1 adj2 : Nat) : Outcome (BuilderState × DocHeap) :=
  Outcome.bind (PyRustTypeBuilder.new "Point" true) (fun b0 =>
    Outcome.bind (PyRustTypeBuilder.doc b0 emptyDocHeap helloBytes adj1 true) (fun r1 =>
      PyRustTypeBuilder.doc r1.1 r1.2 helloBytes adj2 true))

/-- The live doc buffers at the end of the double doc-string scenario. -/
def docTwiceBuffers (adj1 adj2 : Nat) : Option (List (Nat × List Nat)) :=
  match docTwiceScenario adj1 adj2 with
  | .ok r => some r.2.buffers
  | .panicked _ => none

/-- Example payload used by witnesses: 8 bytes, 8-byte alignment. -/
def tEx : PayloadTy := ⟨8, 8, 0⟩

/-- Example payload used by witnesses: 2 bytes, 2-byte alignment. -/
def t2Ex : PayloadTy := ⟨2, 2, 0⟩

/-- Example zeroed memory returned by the base allocator in witnesses. -/
def m0Ex : Mem := fun _ => 0

/-- Example builder (no target module) used by witnesses. -/
def bEx : BuilderState := { ht := freshHeapType "Point", target_module := none }

theorem roundUp_spec (s a : Nat) (ha : 0 < a) :
    roundUpToMultiple s a % a = 0 ∧ s ≤ roundUpToMultiple s a ∧
    (roundUpToMultiple s a : Int) - (a : Int) < (s : Int) := by
  unfold roundUpToMultiple
  refine ⟨Nat.mul_mod_left _ _, ?_, ?_⟩
  · have h1 := Nat.div_add_mod (s + a - 1) a
    have h2 : (s + a - 1) % a < a := Nat.mod_lt _ ha
    have h3 : (s + a - 1) / a * a = a * ((s + a - 1) / a) := Nat.mul_comm _ _
    omega
  · have h1 := Nat.div_add_mod (s + a - 1) a
    have h2 : (s + a - 1) % a < a := Nat.mod_lt _ ha
    have h3 : (s + a - 1) / a * a = a * ((s + a - 1) / a) := Nat.mul_comm _ _
    omega

theorem readBytes_writeBytes (m : Mem) (off : Nat) (bs : List Nat) :
    readBytes (writeBytes m off bs) off bs.length = bs := by
  apply List.ext_getElem
  · simp [readBytes]
  · intro i h1 h2
    simp only [readBytes, writeBytes, List.getElem_map, List.getElem_range]
    have hcond : off ≤ off + i ∧ off + i - off < bs.length := by
      refine ⟨Nat.le_add_right off i, ?_⟩
      simpa [Nat.add_sub_cancel_left] using h2
    rw [dif_pos hcond]
    simp [List.get_eq_getElem, Nat.add_sub_cancel_left]

/-- C1: for every base type B and payload type T with alignment A > 0,
`PyRustObject::<T, B>::offset()` is the smallest multiple of A that is
greater than or equal to S = `B::size()`: it is divisible by A, at
least S, and (as integers) offset - A < S. -/
theorem offset_is_least_aligned_bound (hs : Nat) (t : PayloadTy) (b : BaseTy)
    (hA : 0 < t.align) :
    PyRustObject.offset hs t b % t.align = 0 ∧
    BaseTy.size hs b ≤ PyRustObject.offset hs t b ∧
    (PyRustObject.offset hs t b : Int) - (t.align : Int) < (BaseTy.size hs b : Int) :=
  roundUp_spec (BaseTy.size hs b) t.align hA

theorem offset_is_least_aligned_bound_witness :
    PyRustObject.offset 16 tEx .pyObject % tEx.align = 0 ∧
    BaseTy.size 16 .pyObject ≤ PyRustObject.offset 16 tEx .pyObject ∧
    (PyRustObject.offset 16 tEx .pyObject : Int) - (tEx.align : Int)
      < (BaseTy.size 16 .pyObject : Int) :=
  offset_is_least_aligned_bound 16 tEx .pyObject (by decide)

/-- C2: the declared allocation size of the composite equals the payload
offset plus the payload size, and whenever `finish` succeeds the
returned type descriptor's `tp_basicsize` holds exactly that size. -/
theorem size_eq_offset_plus_payload (hs : Nat) (t : PayloadTy) (bty : BaseTy)
    (b : BuilderState) (rr si : Except PyErr Unit) :
    BaseTy.size hs (.pyRustObject t bty) = PyRustObject.offset hs t bty + t.size ∧
    (∀ ty evs, PyRustTypeBuilder.finish hs t bty b rr si = (.ok ty, evs) →
      ty.type_obj.tp_basicsize = BaseTy.size hs (.pyRustObject t bty)) := by
  refine ⟨rfl, ?_⟩
  intro ty evs hfin
  obtain ⟨ht, tm⟩ := b
  cases rr with
  | error e => simp [PyRustTypeBuilder.finish] at hfin
  | ok u =>
    cases tm with
    | none =>
      simp [PyRustTypeBuilder.finish] at hfin
      rw [← hfin.1]
      rfl
    | some mId =>
      cases si with
      | error e2 => simp [PyRustTypeBuilder.finish] at hfin
      | ok u2 =>
        simp [PyRustTypeBuilder.finish] at hfin
        rw [← hfin.1]
        rfl

theorem size_eq_offset_plus_payload_witness :
    BaseTy.size 16 (.pyRustObject tEx .pyObject)
      = PyRustObject.offset 16 tEx .pyObject + tEx.size ∧
    (PyRustType.mk (finishedHeapType 16 tEx .pyObject bEx.ht)).type_obj.tp_basicsize
      = BaseTy.size 16 (.pyRustObject tEx .pyObject) :=
  ⟨(size_eq_offset_plus_payload 16 tEx .pyObject bEx (.ok ()) (.ok ())).1,
   (size_eq_offset_plus_payload 16 tEx .pyObject bEx (.ok ()) (.ok ())).2
     ⟨finishedHeapType 16 tEx .pyObject bEx.ht⟩ [.typeReady] rfl⟩

/-- C3: round trip — when the composite `alloc` succeeds with payload
value `val` (a byte image of `size_of::<T>()` bytes), the resulting
object holds `val` at `offset()` (it is the base allocation with `val`
written at `offset()`), `get()` reads back exactly `val`, and
`create_instance` returns the same object. -/
theorem alloc_get_roundtrip (hs : Nat) (tpa : Option Mem) (t : PayloadTy) (b : BaseTy)
    (val : List Nat) (bi : b.InitType) (m : Mem)
    (hok : BaseTy.alloc hs tpa (.pyRustObject t b) (val, bi) = .ok m)
    (hlen : val.length = t.size) :
    PyRustObject.get hs t b m = val ∧
    PyRustType.create_instance hs tpa t b val bi = .ok m ∧
    (∃ m0, BaseTy.alloc hs tpa b bi = .ok m0 ∧
      m = writeBytes m0 (PyRustObject.offset hs t b) val) := by
  have hci : PyRustType.create_instance hs tpa t b val bi = .ok m := by
    unfold PyRustType.create_instance
    rw [hok]
  simp only [BaseTy.alloc] at hok
  cases hb : BaseTy.alloc hs tpa b bi with
  | error e =>
    rw [hb] at hok
    exact absurd hok (by simp)
  | ok m1 =>
    rw [hb] at hok
    simp only [Except.ok.injEq] at hok
    refine ⟨?_, hci, m1, rfl, hok.symm⟩
    rw [← hok]
    unfold PyRustObject.get
    rw [← hlen]
    exact readBytes_writeBytes m1 (PyRustObject.offset hs t b) val

theorem alloc_get_roundtrip_witness :
    PyRustObject.get 16 t2Ex .pyObject (writeBytes m0Ex 16 [7, 9]) = [7, 9] ∧
    PyRustType.create_instance 16 (some m0Ex) t2Ex .pyObject [7, 9] ()
      = .ok (writeBytes m0Ex 16 [7, 9]) ∧
    (∃ m0, BaseTy.alloc 16 (some m0Ex) .pyObject () = .ok m0 ∧
      writeBytes m0Ex 16 [7, 9] = writeBytes m0 (PyRustObject.offset 16 t2Ex .pyObject) [7, 9]) :=
  alloc_get_roundtrip 16 (some m0Ex) t2Ex .pyObject [7, 9] ()
    (writeBytes m0Ex 16 [7, 9]) rfl rfl

/-- C4: destruction order — the composite `dealloc` first drops the T
payload at `offset()` and then delegates to `B::dealloc`; for a
two-level composite over the minimal base the trace is: drop T, then
drop T2, then the single `tp_free` of the base allocation. -/
theorem dealloc_destruction_order (hs : Nat) (t t2 : PayloadTy) (b : BaseTy) :
    BaseTy.dealloc hs (.pyRustObject t b)
      = .dropPayload t.label (PyRustObject.offset hs t b) :: BaseTy.dealloc hs b ∧
    BaseTy.dealloc hs (.pyRustObject t (.pyRustObject t2 .pyObject))
      = [.dropPayload t.label (PyRustObject.offset hs t (.pyRustObject t2 .pyObject)),
         .dropPayload t2.label (PyRustObject.offset hs t2 .pyObject),
         .tpFree] :=
  ⟨rfl, rfl⟩

/-- C5: allocation order and failure propagation — the composite `alloc`
calls `B::alloc` first: a base failure is returned unchanged with no
payload written (no object exists at all), and on base success the
result is exactly the base allocation with the payload moved into the
slot at `offset()`. -/
theorem alloc_order_and_failure (hs : Nat) (tpa : Option Mem) (t : PayloadTy) (b : BaseTy)
    (val : List Nat) (bi : b.InitType) :
    (∀ e, BaseTy.alloc hs tpa b bi = .error e →
      BaseTy.alloc hs tpa (.pyRustObject t b) (val, bi) = .error e) ∧
    (∀ m0, BaseTy.alloc hs tpa b bi = .ok m0 →
      BaseTy.alloc hs tpa (.pyRustObject t b) (val, bi)
        = .ok (writeBytes m0 (PyRustObject.offset hs t b) val)) := by
  constructor
  · intro e he
    simp only [BaseTy.alloc]
    rw [he]
  · intro m0 hm0
    simp only [BaseTy.alloc]
    rw [hm0]

theorem alloc_order_and_failure_witness :
    BaseTy.alloc 16 none (.pyRustObject t2Ex .pyObject) ([7, 9], ()) = .error .fetched ∧
    BaseTy.alloc 16 (some m0Ex) (.pyRustObject t2Ex .pyObject) ([7, 9], ())
      = .ok (writeBytes m0Ex (PyRustObject.offset 16 t2Ex .pyObject) [7, 9]) :=
  ⟨(alloc_order_and_failure 16 none t2Ex .pyObject [7, 9] ()).1 .fetched rfl,
   (alloc_order_and_failure 16 (some m0Ex) t2Ex .pyObject [7, 9] ()).2 m0Ex rfl⟩

/-- C6 (evaluation at the failing input): after two `doc` calls with the
bytes of "hello", exactly one buffer is live (the first, id 0, was freed
before the new one was installed), but its contents are the five bytes
of "hello" followed by the byte that sat in memory directly after the
source string — here 1 — because the copy reads `len + 1` bytes out of
a `len` byte string; the claimed terminating NUL is not guaranteed. -/
theorem doc_twice_buffer_eval :
    docTwiceBuffers 1 1 = some [(1, [104, 101, 108, 108, 111, 1])] := rfl

/-- C7: out-of-memory in `PyRustTypeBuilder::new` or in the doc-buffer
allocation of `doc` terminates with `panic!("Out of memory")`; the only
other outcome of either function is a successful builder, and their
result type (`Outcome`) has no typed-failure alternative at all, so the
failure is never surfaced as a typed result. -/
theorem oom_panics (name : String) (b : BuilderState) (h : DocHeap)
    (ds : List Nat) (adj : Nat) :
    PyRustTypeBuilder.new name false = .panicked "Out of memory" ∧
    PyRustTypeBuilder.new name true = .ok { ht := freshHeapType name, target_module := none } ∧
    PyRustTypeBuilder.doc b h ds adj false = .panicked "Out of memory" ∧
    PyRustTypeBuilder.doc b h ds adj true = .ok (installDoc b (freeDocBuffer b h) ds adj) :=
  ⟨rfl, rfl, rfl, rfl⟩

/-- C8: `finish` propagates a `PyType_Ready` failure as a typed result;
on finalization success it attempts registration into the target module
dict (under the stored `ht_name`) exactly when a target module is
associated, propagating a registration failure the same way and
succeeding otherwise. -/
theorem finish_error_propagation (hs : Nat) (t : PayloadTy) (bty : BaseTy)
    (ht : HeapTypeState) (mId : Nat) (e e2 : PyErr) (si : Except PyErr Unit) :
    PyRustTypeBuilder.finish hs t bty ⟨ht, some mId⟩ (.error e) si
      = (.error e, [.typeReady]) ∧
    PyRustTypeBuilder.finish hs t bty ⟨ht, none⟩ (.error e) si
      = (.error e, [.typeReady]) ∧
    PyRustTypeBuilder.finish hs t bty ⟨ht, some mId⟩ (.ok ()) (.error e2)
      = (.error e2, [.typeReady, .registerInModule mId ht.ht_name]) ∧
    PyRustTypeBuilder.finish hs t bty ⟨ht, some mId⟩ (.ok ()) (.ok ())
      = (.ok ⟨finishedHeapType hs t bty ht⟩,
         [.typeReady, .registerInModule mId ht.ht_name]) ∧
    PyRustTypeBuilder.finish hs t bty ⟨ht, none⟩ (.ok ()) si
      = (.ok ⟨finishedHeapType hs t bty ht⟩, [.typeReady]) :=
  ⟨rfl, rfl, rfl, rfl, rfl⟩

/-- C9: the disabled `tp_new` callback sets a TypeError and returns a
null result for every subtype and argument tuple; `new` installs it,
and neither attaching a base nor finishing changes the installed
`tp_new`, so every type built through the builder — at any inheritance
depth — rejects foreign-side construction. -/
theorem foreign_construction_disabled (subty : Nat) (args : List Nat)
    (kwds : List (Nat × Nat)) (name : String) (b : BuilderState) (baseId hs : Nat)
    (t : PayloadTy) (bty : BaseTy) (ht : HeapTypeState) :
    disabled_tp_new_callback subty args kwds
      = (some (.typeError "Cannot initialize rust object from python."), none) ∧
    (freshHeapType name).tp_new = some .disabled ∧
    PyRustTypeBuilder.new name true = .ok ⟨freshHeapType name, none⟩ ∧
    (PyRustTypeBuilder.base b baseId).ht.tp_new = b.ht.tp_new ∧
    (finishedHeapType hs t bty ht).tp_new = ht.tp_new :=
  ⟨rfl, rfl, rfl, rfl, rfl⟩

/-- C10: `new_typebuilder_for_module` silently discards a failure of the
module-name lookup and a failure of the "__module__" dict insertion:
in every case the builder is returned successfully with the target
module attached, and the "__module__" entry is present exactly in the
case where both foreign calls succeeded. -/
theorem module_name_failure_discarded (m : Nat) (name mn : String)
    (e : PyErr) (e2 : PyErr) (si : Except PyErr Unit) :
    new_typebuilder_for_module m (.error e) name true si
      = .ok ⟨freshHeapType name, some m⟩ ∧
    new_typebuilder_for_module m (.ok mn) name true (.error e2)
      = .ok ⟨freshHeapType name, some m⟩ ∧
    new_typebuilder_for_module m (.ok mn) name true (.ok ())
      = .ok ⟨{ freshHeapType name with tp_dict := [("__module__", mn)] }, some m⟩ :=
  ⟨rfl, rfl, rfl⟩
